import Mathlib

/-!
Verification of the mental-health-tracker backend against its design
specification.  The JavaScript services are shallowly embedded as Lean
functions: JS numbers appearing as integers become `Int`/`Nat`, fractional
arithmetic becomes `Rat`, `Math.round` becomes floor of `x + 1/2` (which
agrees with the JS semantics on all inputs), nullable values become
`Option`, and code that can throw is modelled with `Except`/`Option`.
-/

/-- JS `Math.round`: round half towards positive infinity.
`Math.round x = ⌊x + 0.5⌋` for every finite JS number. -/
def jsRound (q : ℚ) : ℤ := ⌊q + 1/2⌋

/-- JS string lowercasing (`String.prototype.toLowerCase`), per character. -/
def jsToLower (s : String) : String := ⟨s.data.map Char.toLower⟩

/-- JS `hay.includes(needle)` for strings. -/
def strContains (hay needle : String) : Bool := decide (needle.data <:+: hay.data)

/-- JS `v || d` for a possibly-missing string `v`: a missing value or the
empty string (both falsy) give the default. -/
def jsOrStr (v : Option String) (d : String) : String :=
  match v with
  | none => d
  | some s => if s = "" then d else s

/-- JS `n || d` for an integer-valued JS number `n`: `0` is falsy. -/
def jsOrInt (n d : ℤ) : ℤ := if n = 0 then d else n

/-- JS `parseInt(v) || d` where `v` is a client-supplied value: `none`
models a missing or non-numeric input (where `parseInt` yields `NaN`,
which is falsy), `some n` a numeric one; `0` is falsy and also defaults. -/
def jsParseIntOr (v : Option ℤ) (d : ℤ) : ℤ :=
  match v with
  | none => d
  | some n => if n = 0 then d else n

/- ===== dashboard.service: calculateStats (src/unnamed/part_000 lines 596-650) ===== -/

/-- Goal priority enum (`goals.priority ENUM('low','medium','high')`). -/
inductive GoalPriority where
  | low
  | medium
  | high
deriving DecidableEq, Repr

/-- A goal as mapped by `DashboardService.getGoals`: `completed` is the
boolean `goal.completed === 1 || goal.completed === true`, `priority`
is `goal.priority || 'medium'` (`none` models a missing value). -/
structure DGoal where
  completed : Bool
  priority : Option GoalPriority := none
deriving DecidableEq, Repr

/-- A mood entry as mapped by `DashboardService.getMoods`:
`score = Number(mood.score) || 0`, so a missing or non-numeric stored
score reaches `calculateStats` as `0`. -/
structure DMood where
  score : ℤ
deriving DecidableEq, Repr

/-- The `getMoods` score mapping `Number(mood.score) || 0`:
a missing/non-numeric stored value (`none`) becomes `0`. -/
def dashMoodScore (raw : Option ℤ) : ℤ := raw.getD 0

/-- A meditation run as mapped by `DashboardService.getMeditationRuns`:
`actualSeconds = Number(run.actual_seconds || run.actualSeconds || 0)`. -/
structure DRun where
  actualSeconds : ℤ
deriving DecidableEq, Repr

/-- A journal entry as seen by `calculateStats`: only the `summary`
field is consulted (`journalEntries.filter(j => j.summary)`). -/
structure DJournal where
  summary : Option String := none
deriving DecidableEq, Repr

/-- One `{ open, completed }` pair of `goalsByPriority`. -/
structure PriorityBucket where
  openCnt : ℕ
  completedCnt : ℕ
deriving DecidableEq, Repr

/-- The `goalsByPriority` object of `calculateStats`. -/
structure GoalsByPriority where
  low : PriorityBucket
  medium : PriorityBucket
  high : PriorityBucket
deriving DecidableEq, Repr

/-- The object returned by `DashboardService.calculateStats`. -/
structure DashStats where
  totalGoals : ℕ
  completedGoals : ℕ
  openGoals : ℕ
  avgMood : ℚ
  totalMedMinutes : ℤ
  totalMedSessions : ℕ
  journalCount : ℕ
  journalWithSummary : ℕ
  moodCounts : List ℕ
  goalsByPriority : GoalsByPriority
  completionRate : ℤ
deriving DecidableEq, Repr

/-- `g.priority || 'medium'` in the `goalsByPriority` loop. -/
def effPriority (g : DGoal) : GoalPriority := g.priority.getD .medium

/-- The histogram index `Math.max(0, Math.min(4, (m.score || 1) - 1))`. -/
def moodIdx (s : ℤ) : ℕ := (max 0 (min 4 ((jsOrInt s 1) - 1))).toNat

/-- `moodCounts[idx] += 1` on a five-element counter list. -/
def bumpAt (l : List ℕ) (i : ℕ) : List ℕ := l.set i ((l.getD i 0) + 1)

/-- The `moodCounts` accumulation loop of `calculateStats`
(`moods?.forEach(...)` over the fixed initial array `[0,0,0,0,0]`). -/
def moodCountsOf (moods : List DMood) : List ℕ :=
  moods.foldl (fun acc m => bumpAt acc (moodIdx m.score)) [0, 0, 0, 0, 0]

/-- Count of goals with a given priority and completed-state, embedding
the `goalsByPriority` accumulation loop. -/
def priorityCount (goals : List DGoal) (p : GoalPriority) (comp : Bool) : ℕ :=
  (goals.filter (fun g => effPriority g = p ∧ g.completed = comp)).length

/-- `DashboardService.calculateStats` (part_000 lines 596-650), embedded
field by field; `avgMood` is `Math.round(rawAvg * 10) / 10` and
`completionRate` is `Math.round((completed / total) * 100)` guarded by
`totalGoals > 0`. -/
def calculateStats (goals : List DGoal) (moods : List DMood)
    (medRuns : List DRun) (journalEntries : List DJournal) : DashStats :=
  let totalGoals := goals.length
  let completedGoals := (goals.filter (fun g => g.completed)).length
  let rawAvg : ℚ :=
    if moods.length > 0 then
      ((moods.map (fun m => (m.score : ℚ))).sum) / (moods.length : ℚ)
    else 0
  { totalGoals := totalGoals
    completedGoals := completedGoals
    openGoals := totalGoals - completedGoals
    avgMood := (jsRound (rawAvg * 10) : ℚ) / 10
    totalMedMinutes := (medRuns.map (fun r => jsRound ((r.actualSeconds : ℚ) / 60))).sum
    totalMedSessions := medRuns.length
    journalCount := journalEntries.length
    journalWithSummary :=
      (journalEntries.filter (fun j => jsOrStr j.summary "" ≠ "")).length
    moodCounts := moodCountsOf moods
    goalsByPriority :=
      { low := { openCnt := priorityCount goals .low false
                 completedCnt := priorityCount goals .low true }
        medium := { openCnt := priorityCount goals .medium false
                    completedCnt := priorityCount goals .medium true }
        high := { openCnt := priorityCount goals .high false
                  completedCnt := priorityCount goals .high true } }
    completionRate :=
      if totalGoals > 0 then
        jsRound (((completedGoals : ℚ) / (totalGoals : ℚ)) * 100)
      else 0 }

theorem jsRound_close (q : ℚ) : |(jsRound q : ℚ) - q| ≤ 1/2 := by
  have h1 : ((⌊q + 1/2⌋ : ℤ) : ℚ) ≤ q + 1/2 := Int.floor_le _
  have h2 : q + 1/2 < (⌊q + 1/2⌋ : ℤ) + 1 := Int.lt_floor_add_one _
  rw [abs_le]
  constructor <;> simp only [jsRound] <;> linarith

theorem moodIdx_lt5 (s : ℤ) : moodIdx s < 5 := by
  have h1 : min 4 (jsOrInt s 1 - 1) ≤ 4 := min_le_left _ _
  have h2 : max 0 (min 4 (jsOrInt s 1 - 1)) ≤ (4 : ℤ) := max_le (by norm_num) h1
  have h3 : (max 0 (min 4 (jsOrInt s 1 - 1))).toNat ≤ 4 := Int.toNat_le.mpr h2
  simp only [moodIdx]
  omega

theorem bumpAt_length (l : List ℕ) (i : ℕ) : (bumpAt l i).length = l.length := by
  simp [bumpAt]

theorem bumpAt_sum (l : List ℕ) (i : ℕ) (h : i < l.length) :
    (bumpAt l i).sum = l.sum + 1 := by
  induction l generalizing i with
  | nil => simp at h
  | cons a t ih =>
    cases i with
    | zero => simp [bumpAt, List.getD]; omega
    | succ j =>
      have hj : j < t.length := by simpa using h
      have := ih j hj
      simp only [bumpAt, List.set, List.getD, List.get?] at this ⊢
      simp only [List.sum_cons]
      omega

theorem moodCountsOf_spec (moods : List DMood) :
    (moodCountsOf moods).sum = moods.length ∧ (moodCountsOf moods).length = 5 := by
  have key : ∀ (ms : List DMood) (acc : List ℕ), acc.length = 5 →
      (ms.foldl (fun a m => bumpAt a (moodIdx m.score)) acc).sum = acc.sum + ms.length ∧
      (ms.foldl (fun a m => bumpAt a (moodIdx m.score)) acc).length = 5 := by
    intro ms
    induction ms with
    | nil => intro acc h; simp [h]
    | cons m t ih =>
      intro acc h
      have hlt : moodIdx m.score < acc.length := by rw [h]; exact moodIdx_lt5 _
      have h1 := bumpAt_sum acc (moodIdx m.score) hlt
      have h2 : (bumpAt acc (moodIdx m.score)).length = 5 := by
        rw [bumpAt_length, h]
      have h3 := ih (bumpAt acc (moodIdx m.score)) h2
      simp only [List.foldl_cons]
      refine ⟨?_, h3.2⟩
      rw [h3.1, h1, List.length_cons]
      omega
  have h0 := key moods [0, 0, 0, 0, 0] (by decide)
  simpa [moodCountsOf] using h0

/-- Claim C1: for every list of goals, `calculateStats` returns a
`completionRate` that is exactly 0 when there are no goals, and otherwise
an integer within 1/2 of `(completedGoals / totalGoals) * 100`, i.e. the
percentage rounded to the nearest integer (JS `Math.round`, ties up).
The value is an integer by construction, so it is never `NaN` and no
division error can occur. -/
theorem calculateStats_completionRate_correct (goals : List DGoal)
    (moods : List DMood) (runs : List DRun) (js : List DJournal) :
    (goals.length = 0 → (calculateStats goals moods runs js).completionRate = 0) ∧
    (0 < goals.length →
      |((calculateStats goals moods runs js).completionRate : ℚ) -
        (((goals.filter (fun g => g.completed)).length : ℚ) / (goals.length : ℚ)) * 100|
        ≤ 1/2) := by
  constructor
  · intro h
    simp [calculateStats, h]
  · intro h
    have hrate : (calculateStats goals moods runs js).completionRate =
        jsRound ((((goals.filter (fun g => g.completed)).length : ℚ) /
          (goals.length : ℚ)) * 100) := by
      simp [calculateStats, h]
    rw [hrate]
    exact jsRound_close _

/-- Witness for C1 at concrete inputs: the empty goal list gives rate 0,
and a two-goal list with one completed gives a rate within half a percent
of 50. -/
theorem calculateStats_completionRate_correct_witness :
    (calculateStats [] [] [] []).completionRate = 0 ∧
    |((calculateStats [⟨true, none⟩, ⟨false, none⟩] [] [] []).completionRate : ℚ) -
      ((([⟨true, none⟩, ⟨false, none⟩] : List DGoal).filter (fun g => g.completed)).length : ℚ) /
        (([⟨true, none⟩, ⟨false, none⟩] : List DGoal).length : ℚ) * 100| ≤ 1/2 :=
  ⟨(calculateStats_completionRate_correct [] [] [] []).1 rfl,
   (calculateStats_completionRate_correct [⟨true, none⟩, ⟨false, none⟩] [] [] []).2
     (by decide)⟩

/-- Claim C9: the five-element `moodCounts` histogram of `calculateStats`
sums to exactly the number of mood entries (each entry lands in exactly
one bucket); a missing stored score reaches the histogram as 0 (via
`Number(mood.score) || 0` in `getMoods`), a zero score is counted in the
score-1 bucket (index 0), and any score above 5 is clamped into the
score-5 bucket (index 4). -/
theorem calculateStats_moodCounts_partition (goals : List DGoal)
    (moods : List DMood) (runs : List DRun) (js : List DJournal) :
    ((calculateStats goals moods runs js).moodCounts).sum = moods.length ∧
    ((calculateStats goals moods runs js).moodCounts).length = 5 ∧
    dashMoodScore none = 0 ∧
    moodIdx 0 = 0 ∧
    (∀ s : ℤ, 5 < s → moodIdx s = 4) := by
  have hmc : (calculateStats goals moods runs js).moodCounts = moodCountsOf moods := rfl
  refine ⟨?_, ?_, rfl, by decide, ?_⟩
  · rw [hmc]; exact (moodCountsOf_spec moods).1
  · rw [hmc]; exact (moodCountsOf_spec moods).2
  · intro s hs
    have hne : jsOrInt s 1 = s := by
      simp only [jsOrInt, if_neg (by omega : ¬ s = 0)]
    have hmin : min 4 (s - 1) = 4 := min_eq_left (by omega)
    have hmax : max (0 : ℤ) 4 = 4 := by norm_num
    simp only [moodIdx, hne, hmin, hmax]
    rfl

/-- Witness for C9 at a concrete input: three entries with scores 0, 3
and 9 produce a histogram summing to 3, and the clamping facts hold at
score 9. -/
theorem calculateStats_moodCounts_partition_witness :
    ((calculateStats [] [⟨0⟩, ⟨3⟩, ⟨9⟩] [] []).moodCounts).sum = 3 ∧
    moodIdx 9 = 4 :=
  ⟨(calculateStats_moodCounts_partition [] [⟨0⟩, ⟨3⟩, ⟨9⟩] [] []).1,
   (calculateStats_moodCounts_partition [] [⟨0⟩, ⟨3⟩, ⟨9⟩] [] []).2.2.2.2 9 (by decide)⟩

/- ===== goals.service (src/unnamed/part_002 lines 219-270) and
   goals controller (src/unnamed/part_004) ===== -/

/-- A row of the `goals` table (schema: `completed TINYINT(1) NOT NULL
DEFAULT 0`, `completed_at DATETIME NULL`); datetimes are kept as opaque
strings. -/
structure GoalRow where
  id : ℕ
  user_id : ℕ
  title : String := ""
  note : Option String := none
  due_at : Option String := none
  completed : ℤ := 0
  completed_at : Option String := none
  priority : String := "medium"
  tags : Option String := none
deriving DecidableEq, Repr

/-- The partial-update payload of `updateGoal`: an outer `none` models a
JS `undefined` field (not patched); for nullable columns the inner
`Option` distinguishes `null` from a value. `completed` carries the JS
truthiness of `changes.completed` (stored as `completed ? 1 : 0`). -/
structure GoalChanges where
  title : Option String := none
  note : Option (Option String) := none
  due_at : Option (Option String) := none
  completed : Option Bool := none
  completed_at : Option (Option String) := none
  priority : Option String := none
  tags : Option (Option String) := none
deriving DecidableEq, Repr

/-- True when no field of the update payload is supplied (the
`fields.length === 0` early-return branch of `updateGoal`). -/
def goalChangesEmpty (c : GoalChanges) : Bool :=
  c.title.isNone && c.note.isNone && c.due_at.isNone && c.completed.isNone &&
    c.completed_at.isNone && c.priority.isNone && c.tags.isNone

/-- The effect of the generated `UPDATE goals SET ...` statement on one
matching row: each supplied field is overwritten, `completed` as
`changes.completed ? 1 : 0`. -/
def applyGoalChanges (g : GoalRow) (c : GoalChanges) : GoalRow :=
  { g with
    title := c.title.getD g.title
    note := c.note.getD g.note
    due_at := c.due_at.getD g.due_at
    completed := match c.completed with
      | none => g.completed
      | some b => if b then 1 else 0
    completed_at := c.completed_at.getD g.completed_at
    priority := c.priority.getD g.priority
    tags := c.tags.getD g.tags }

/-- `getGoalById(id, userId)`: `SELECT * FROM goals WHERE id = ? AND
user_id = ? LIMIT 1`, then `rows[0] || null`. -/
def getGoalById (db : List GoalRow) (id uid : ℕ) : Option GoalRow :=
  db.find? (fun r => r.id = id && r.user_id = uid)

/-- `updateGoal(id, userId, changes)`: with no supplied fields it
returns the current row; otherwise it runs the ownership-scoped UPDATE
and re-reads the row.  Returns the new table contents and the returned
goal. -/
def updateGoal (db : List GoalRow) (id uid : ℕ) (c : GoalChanges) :
    List GoalRow × Option GoalRow :=
  if goalChangesEmpty c then (db, getGoalById db id uid)
  else
    let db2 := db.map (fun r =>
      if r.id = id && r.user_id = uid then applyGoalChanges r c else r)
    (db2, getGoalById db2 id uid)

/-- `deleteGoal(id, userId)`: ownership-scoped DELETE; the boolean is
`result.affectedRows > 0`. -/
def deleteGoal (db : List GoalRow) (id uid : ℕ) : List GoalRow × Bool :=
  (db.filter (fun r => !(r.id = id && r.user_id = uid)),
   db.any (fun r => r.id = id && r.user_id = uid))

/-- Responses of the goals controller relevant here: `getOne` answers
404 `'Not found'` when the service returns null, 200 with the goal
otherwise (src/unnamed/part_004 `getOne`). -/
inductive GoalResp where
  | notFound (msg : String)
  | ok (g : GoalRow)
deriving DecidableEq, Repr

/-- The goals controller `getOne` handler after auth, on the goals
table state. -/
def controllerGetOne (db : List GoalRow) (id uid : ℕ) : GoalResp :=
  match getGoalById db id uid with
  | none => .notFound "Not found"
  | some g => .ok g

/-- Claim C4 counterexample: a single PUT whose body sets only
`completed: true` (no `completed_at`) on a fresh goal leaves
`completed_at` null while storing `completed = 1`, so the stored and
returned goal violates `completed == true iff completed_at != null`.
Neither `updateGoal` nor the controller derives `completed_at` from
`completed`; the frontend toggle supplies both fields itself. -/
theorem updateGoal_completed_only_counterexample :
    ((updateGoal [{ id := 1, user_id := 7, title := "Run 5k" }] 1 7
        { completed := some true }).2.map
      (fun g => (g.completed, g.completed_at))) = some (1, none) ∧
    (updateGoal [{ id := 1, user_id := 7, title := "Run 5k" }] 1 7
        { completed := some true }).1 =
      [{ id := 1, user_id := 7, title := "Run 5k", completed := 1 }] := by
  constructor <;> rfl

/-- Claim C4 (amended): after a single update call whose payload supplies
both `completed` and `completed_at` with `completed_at` non-null exactly
when `completed` is true — the payload the frontend completion toggle
sends — the stored and returned goal satisfies `completed == true` iff
`completed_at != null`.  The backend alone does not enforce the linkage
when `completed` is sent without `completed_at`. -/
theorem updateGoal_completed_consistent (db : List GoalRow) (id uid : ℕ)
    (c : GoalChanges) (b : Bool) (ca : Option String)
    (hb : c.completed = some b) (hca : c.completed_at = some ca)
    (hiff : ca.isSome = b) :
    ∀ g, (updateGoal db id uid c).2 = some g →
      (g.completed = 1 ↔ g.completed_at ≠ none) := by
  intro g hg
  have hne : goalChangesEmpty c = false := by
    simp [goalChangesEmpty, hb]
  have hg2 : getGoalById (db.map (fun r =>
      if r.id = id && r.user_id = uid then applyGoalChanges r c else r)) id uid =
      some g := by
    simpa [updateGoal, hne] using hg
  have hp := List.find?_some hg2
  have hmem := List.mem_of_find?_eq_some hg2
  obtain ⟨r, hr, hfr⟩ := List.mem_map.mp hmem
  by_cases hc : (r.id = id && r.user_id = uid) = true
  · rw [if_pos hc] at hfr
    subst hfr
    have hcomp : (applyGoalChanges r c).completed = if b then 1 else 0 := by
      simp [applyGoalChanges, hb]
    have hcat : (applyGoalChanges r c).completed_at = ca := by
      simp [applyGoalChanges, hca]
    rw [hcomp, hcat]
    cases b with
    | false =>
      cases ca with
      | none => simp
      | some x => simp at hiff
    | true =>
      cases ca with
      | none => simp at hiff
      | some x => simp
  · rw [if_neg hc] at hfr
    subst hfr
    exact absurd hp hc

/-- Witness for the amended C4 at a concrete toggle payload. -/
theorem updateGoal_completed_consistent_witness :
    (({ id := 1, user_id := 7, title := "Run 5k", completed := 1, completed_at := some "2025-01-01" } : GoalRow).completed = 1 ↔
      ({ id := 1, user_id := 7, title := "Run 5k", completed := 1, completed_at := some "2025-01-01" } : GoalRow).completed_at ≠ none) :=
  updateGoal_completed_consistent [{ id := 1, user_id := 7, title := "Run 5k" }]
    1 7 { completed := some true, completed_at := some (some "2025-01-01") }
    true (some "2025-01-01") rfl rfl rfl _ (by rfl)

/-- Claim C6: for distinct users A and B and a goal id every row of which
belongs to B, user A observes exactly what a nonexistent row would give:
`getGoalById` is null (the controller answers 404 "Not found"),
`updateGoal` returns null and leaves the table unchanged, and
`deleteGoal` returns false and deletes nothing; no "forbidden" response
exists on these paths. -/
theorem goals_cross_user_isolation (db : List GoalRow) (gid A B : ℕ)
    (c : GoalChanges) (hAB : A ≠ B)
    (hown : ∀ r ∈ db, r.id = gid → r.user_id = B) :
    getGoalById db gid A = none ∧
    controllerGetOne db gid A = .notFound "Not found" ∧
    (updateGoal db gid A c).2 = none ∧
    (updateGoal db gid A c).1 = db ∧
    (deleteGoal db gid A).2 = false ∧
    (deleteGoal db gid A).1 = db := by
  have hnom : ∀ r ∈ db, ¬ ((r.id = gid && r.user_id = A) = true) := by
    intro r hr hcontra
    simp only [Bool.and_eq_true, decide_eq_true_eq] at hcontra
    have h1 := hown r hr hcontra.1
    rw [hcontra.2] at h1
    exact hAB h1
  have hfind : getGoalById db gid A = none := by
    apply List.find?_eq_none.mpr
    intro r hr
    exact hnom r hr
  have hmap : db.map (fun r =>
      if r.id = gid && r.user_id = A then applyGoalChanges r c else r) = db := by
    conv_rhs => rw [← List.map_id db]
    apply List.map_congr_left
    intro r hr
    rw [if_neg (hnom r hr)]
    rfl
  refine ⟨hfind, ?_, ?_, ?_, ?_, ?_⟩
  · simp [controllerGetOne, hfind]
  · by_cases hemp : goalChangesEmpty c = true
    · simpa [updateGoal, hemp] using hfind
    · simp only [updateGoal, hemp, if_neg, Bool.false_eq_true, if_false]
      rw [hmap]
      exact hfind
  · by_cases hemp : goalChangesEmpty c = true
    · simp [updateGoal, hemp]
    · simp only [updateGoal, hemp, Bool.false_eq_true, if_false]
      exact hmap
  · simp only [deleteGoal]
    apply List.any_eq_false.mpr
    intro r hr
    exact hnom r hr
  · simp only [deleteGoal]
    apply List.filter_eq_self.mpr
    intro r hr
    cases hb : (r.id = gid && r.user_id = A) with
    | false => rfl
    | true => exact absurd hb (hnom r hr)

/-- Witness for C6: user 1 probing the goal with id 5 owned by user 2. -/
theorem goals_cross_user_isolation_witness :
    getGoalById [{ id := 5, user_id := 2, title := "B goal" }] 5 1 = none ∧
    controllerGetOne [{ id := 5, user_id := 2, title := "B goal" }] 5 1 =
      .notFound "Not found" ∧
    (updateGoal [{ id := 5, user_id := 2, title := "B goal" }] 5 1 {}).2 = none ∧
    (updateGoal [{ id := 5, user_id := 2, title := "B goal" }] 5 1 {}).1 =
      [{ id := 5, user_id := 2, title := "B goal" }] ∧
    (deleteGoal [{ id := 5, user_id := 2, title := "B goal" }] 5 1).2 = false ∧
    (deleteGoal [{ id := 5, user_id := 2, title := "B goal" }] 5 1).1 =
      [{ id := 5, user_id := 2, title := "B goal" }] :=
  goals_cross_user_isolation [{ id := 5, user_id := 2, title := "B goal" }] 5 1 2 {}
    (by decide) (by decide)

/- ===== A small JSON model for the `tags` columns (JSON.parse /
   JSON.stringify as used by the services) ===== -/

/-- Characters written via code points to keep the file free of literal
braces, backslashes and quotes-in-chars. -/
def openBraceChar : Char := Char.ofNat 123

def closeBraceChar : Char := Char.ofNat 125

def backslashChar : Char := Char.ofNat 92

def backtickChar : Char := Char.ofNat 96

/-- JSON values as relevant to the tag columns: `JSON.parse` of a stored
string yields one of these, or throws (modelled as `none` from
`jsonParse`). -/
inductive JVal where
  | null
  | bool (b : Bool)
  | num (n : ℤ)
  | str (s : String)
  | arr (elems : List JVal)

def skipWs (cs : List Char) : List Char := cs.dropWhile (fun c => c.isWhitespace)

/-- JSON string body: consume up to the closing quote, a backslash
escaping the following character. -/
def parseJStrAux : List Char → List Char → Option (String × List Char)
  | [], _ => none
  | [c], acc => if c = '"' then some (⟨acc.reverse⟩, []) else none
  | c :: d :: rest, acc =>
    if c = '"' then some (⟨acc.reverse⟩, d :: rest)
    else if c = backslashChar then parseJStrAux rest (d :: acc)
    else parseJStrAux (d :: rest) (c :: acc)

def digitsToNat (ds : List Char) : ℕ :=
  ds.foldl (fun acc c => acc * 10 + (c.toNat - 48)) 0

/-- JSON integer literals (the tag domain never stores fractions; a
fractional or exponent literal is treated as unparseable, which only
widens the malformed-input case). -/
def parseJNum (cs : List Char) : Option (ℤ × List Char) :=
  let neg : Bool := match cs with
    | c :: _ => decide (c = '-')
    | [] => false
  let cs1 := if neg then cs.drop 1 else cs
  let ds := cs1.takeWhile (fun c => c.isDigit)
  let rest := cs1.dropWhile (fun c => c.isDigit)
  if ds = [] then none
  else some ((if neg then -(digitsToNat ds : ℤ) else (digitsToNat ds : ℤ)), rest)

mutual

/-- Recursive-descent JSON value parser; the fuel argument bounds the
recursion depth and is chosen large enough for any input of the given
length. -/
def parseJVal : ℕ → List Char → Option (JVal × List Char)
  | 0, _ => none
  | fuel + 1, cs =>
    match skipWs cs with
    | [] => none
    | c :: rest =>
      if c = '"' then (parseJStrAux rest []).map (fun p => (JVal.str p.1, p.2))
      else if c = '[' then
        match skipWs rest with
        | ']' :: rest2 => some (JVal.arr [], rest2)
        | _ => (parseJArrItems fuel rest []).map (fun p => (JVal.arr p.1, p.2))
      else if c = 'n' then
        if ['u', 'l', 'l'].isPrefixOf rest then some (JVal.null, rest.drop 3) else none
      else if c = 't' then
        if ['r', 'u', 'e'].isPrefixOf rest then some (JVal.bool true, rest.drop 3) else none
      else if c = 'f' then
        if ['a', 'l', 's', 'e'].isPrefixOf rest then some (JVal.bool false, rest.drop 4) else none
      else (parseJNum (c :: rest)).map (fun p => (JVal.num p.1, p.2))

/-- Comma-separated array items up to the closing bracket. -/
def parseJArrItems : ℕ → List Char → List JVal → Option (List JVal × List Char)
  | 0, _, _ => none
  | fuel + 1, cs, acc =>
    match parseJVal fuel cs with
    | none => none
    | some (v, rest) =>
      match skipWs rest with
      | ']' :: rest2 => some ((v :: acc).reverse, rest2)
      | ',' :: rest2 => parseJArrItems fuel rest2 (v :: acc)
      | _ => none

end

/-- `JSON.parse` on the tag domain: `none` models a thrown
`SyntaxError`. -/
def jsonParse (s : String) : Option JVal :=
  match parseJVal (2 * s.length + 2) s.data with
  | some (v, rest) => if skipWs rest = [] then some v else none
  | none => none

/-- `JSON.stringify` of an array of strings (used when writing tag
lists). -/
def jsonEscapeChar (c : Char) : String :=
  if c = '"' then "\\\""
  else if c = backslashChar then "\\\\"
  else String.singleton c

def jsonStringifyStrList (l : List String) : String :=
  "[" ++ String.intercalate ","
    (l.map (fun s => "\"" ++ String.join (s.data.map jsonEscapeChar) ++ "\"")) ++ "]"

/-- The value found in a `tags JSON NULL` column as delivered by the
driver: SQL NULL, a JSON string, or an already-decoded JSON value. -/
inductive TagsCol where
  | dbNull
  | dbStr (s : String)
  | dbVal (v : JVal)

/-- The shared tag-reading idiom of `sanitizeEntry` in mood.service and
journal.service: falsy column gives `[]`; a string is `JSON.parse`d
inside try/catch with `[]` on throw; finally a non-array result is
replaced by `[]` (`Array.isArray(tags) ? tags : []`). -/
def sanitizeTags (t : TagsCol) : List JVal :=
  match t with
  | .dbNull => []
  | .dbStr s =>
    match jsonParse s with
    | some (JVal.arr l) => l
    | some _ => []
    | none => []
  | .dbVal v =>
    match v with
    | JVal.arr l => l
    | _ => []

/- ===== journal.service (src/unnamed/part_003) and mood.service
   (src/unnamed/part_002 lines 270-443) read/write paths ===== -/

/-- A `journal_entries` row as read by the services (datetime columns,
whose ISO re-formatting the claims do not concern, are omitted). -/
structure JournalRow where
  id : String
  user_id : ℕ
  mood : String := "happy"
  text : String := ""
  tags : TagsCol := .dbNull
  summary : Option String := none
  sentiment : Option String := none

/-- `MOOD_REVERSE_MAP[entry.mood] || '😊'` of journal.service. -/
def moodReverseMap (m : String) : String :=
  if m = "happy" then "😊"
  else if m = "neutral" then "😐"
  else if m = "sad" then "😔"
  else "😊"

/-- The wire shape produced by journal.service `sanitizeEntry`. -/
structure JournalEntryOut where
  id : String
  mood : String
  text : String
  tags : List JVal
  summary : Option String
  sentiment : Option String

/-- journal.service `sanitizeEntry` (part_003 lines 35-57): tags via the
try/catch + `Array.isArray` idiom. -/
def journalSanitizeEntry (e : JournalRow) : JournalEntryOut :=
  { id := e.id
    mood := moodReverseMap e.mood
    text := e.text
    tags := sanitizeTags e.tags
    summary := e.summary
    sentiment := e.sentiment }

/-- A `mood_entries` row as read by mood.service. -/
structure MoodRow where
  id : String
  user_id : ℕ
  score : ℤ := 0
  energy : ℤ := 0
  intensity : ℤ := 0
  emoji : String := ""
  note : Option String := none
  date : Option String := none
  tags : TagsCol := .dbNull

/-- The wire shape produced by mood.service `sanitizeEntry`. -/
structure MoodEntryOut where
  id : String
  score : ℤ
  energy : ℤ
  intensity : ℤ
  emoji : String
  note : Option String
  tags : List JVal

/-- mood.service `sanitizeEntry` (part_002 lines 290-314):
`parseInt(entry.score) || 1`, `parseInt(entry.energy) || 3`,
`parseInt(entry.intensity) || 3` on a numeric column (where `parseInt`
is the identity on the stored integer and only `0` is falsy), tags via
the shared try/catch idiom. -/
def moodSanitizeEntry (e : MoodRow) : MoodEntryOut :=
  { id := e.id
    score := jsOrInt e.score 1
    energy := jsOrInt e.energy 3
    intensity := jsOrInt e.intensity 3
    emoji := e.emoji
    note := e.note
    tags := sanitizeTags e.tags }

/-- The client payload of mood.service `createEntry`: numeric fields are
`some n` when `parseInt` of the supplied value yields the integer `n`,
`none` when the field is missing or non-numeric (`parseInt` gives
`NaN`). -/
structure MoodPayload where
  score : Option ℤ := none
  energy : Option ℤ := none
  intensity : Option ℤ := none
  emoji : Option String := none
  note : Option String := none
  date : Option String := none
  tags : Option (List String) := none

/-- The row inserted by mood.service `createEntry` (part_002 lines
335-373): `parseInt(payload.score) || 1`, `parseInt(payload.energy) || 3`,
`parseInt(payload.intensity) || 3`, `payload.emoji || '😐'`, tags
serialized with `JSON.stringify` when an array was supplied, else NULL. -/
def moodCreateEntryRow (userId : ℕ) (entryId : String) (p : MoodPayload) : MoodRow :=
  { id := entryId
    user_id := userId
    score := jsParseIntOr p.score 1
    energy := jsParseIntOr p.energy 3
    intensity := jsParseIntOr p.intensity 3
    emoji := jsOrStr p.emoji "😐"
    note := p.note
    date := p.date
    tags := match p.tags with
      | some l => .dbStr (jsonStringifyStrList l)
      | none => .dbNull }

/-- mood.service `createEntry` returns the stored row read back through
`getEntry`, i.e. `sanitizeEntry` of the inserted row. -/
def moodCreateEntry (userId : ℕ) (entryId : String) (p : MoodPayload) : MoodEntryOut :=
  moodSanitizeEntry (moodCreateEntryRow userId entryId p)

/- ===== DashboardService.getJournalEntries (part_000 lines 573-594) ===== -/

/-- The per-entry shape built by `getJournalEntries`; its `tags` is the
raw `JSON.parse` result (no `Array.isArray` guard on this path). -/
structure DashJournalOut where
  id : String
  mood : String
  text : String
  tags : JVal
  summary : Option String
  sentiment : Option String

/-- One iteration of the `rows.map(...)` callback: a string tags column
is `JSON.parse`d with no surrounding try/catch, so a malformed value
throws (modelled as `Except.error`). -/
def dashJournalRowMap (e : JournalRow) : Except Unit DashJournalOut :=
  match e.tags with
  | .dbNull =>
    .ok { id := e.id, mood := e.mood, text := e.text, tags := JVal.arr [],
          summary := e.summary, sentiment := e.sentiment }
  | .dbStr s =>
    match jsonParse s with
    | some v =>
      .ok { id := e.id, mood := e.mood, text := e.text, tags := v,
            summary := e.summary, sentiment := e.sentiment }
    | none => .error ()
  | .dbVal v =>
    .ok { id := e.id, mood := e.mood, text := e.text, tags := v,
          summary := e.summary, sentiment := e.sentiment }

/-- JS `rows.map(f)` where `f` may throw: the first throw aborts the
whole map. -/
def mapThrow (f : α → Except Unit β) : List α → Except Unit (List β)
  | [] => .ok []
  | x :: xs =>
    match f x with
    | .error e => .error e
    | .ok y =>
      match mapThrow f xs with
      | .error e => .error e
      | .ok ys => .ok (y :: ys)

/-- `DashboardService.getJournalEntries` on the rows returned by the
query: the surrounding try/catch converts any thrown error into an
empty result list. -/
def getJournalEntriesDash (rows : List JournalRow) : List DashJournalOut :=
  match mapThrow dashJournalRowMap rows with
  | .ok l => l
  | .error _ => []

theorem mapThrow_error_of_mem (f : α → Except Unit β) (rows : List α)
    (h : ∃ e ∈ rows, f e = .error ()) : mapThrow f rows = .error () := by
  induction rows with
  | nil => obtain ⟨e, he, _⟩ := h; exact absurd he (List.not_mem_nil e)
  | cons x xs ih =>
    obtain ⟨e, he, hfe⟩ := h
    rcases List.mem_cons.mp he with heq | hmem
    · subst heq
      simp [mapThrow, hfe]
    · cases hfx : f x with
      | error u => cases u; simp [mapThrow, hfx]
      | ok y =>
        have := ih ⟨e, hmem, hfe⟩
        simp [mapThrow, hfx, this]

/-- Claim C5 counterexample: a client payload with score 99, energy -2
and intensity 7 is stored and returned unchanged by `createEntry` +
`sanitizeEntry` — no clamping to [1,5] and no replacement of
out-of-range numeric values takes place. -/
theorem moodCreateEntry_no_clamping_counterexample :
    (moodCreateEntry 1 "mood1"
      { score := some 99, energy := some (-2), intensity := some 7 }).score = 99 ∧
    (moodCreateEntry 1 "mood1"
      { score := some 99, energy := some (-2), intensity := some 7 }).energy = -2 ∧
    (moodCreateEntry 1 "mood1"
      { score := some 99, energy := some (-2), intensity := some 7 }).intensity = 7 ∧
    ¬(1 ≤ (99 : ℤ) ∧ (99 : ℤ) ≤ 5) := by
  refine ⟨rfl, rfl, rfl, by decide⟩

/-- Claim C5 (amended): `createEntry` and `sanitizeEntry` never reject a
numeric field and replace only a falsy one — missing, non-numeric
(`parseInt` gives `NaN`) or zero — with the safe defaults score 1,
energy 3, intensity 3; any other numeric value, including out-of-range
ones, is stored and read back unchanged (no clamping to [1,5]). -/
theorem moodCreateEntry_defaults (uid : ℕ) (eid : String) (p : MoodPayload) :
    ((p.score = none ∨ p.score = some 0) →
      (moodCreateEntry uid eid p).score = 1) ∧
    ((p.energy = none ∨ p.energy = some 0) →
      (moodCreateEntry uid eid p).energy = 3) ∧
    ((p.intensity = none ∨ p.intensity = some 0) →
      (moodCreateEntry uid eid p).intensity = 3) ∧
    (∀ n : ℤ, n ≠ 0 → p.score = some n → (moodCreateEntry uid eid p).score = n) ∧
    (∀ n : ℤ, n ≠ 0 → p.energy = some n → (moodCreateEntry uid eid p).energy = n) ∧
    (∀ n : ℤ, n ≠ 0 → p.intensity = some n → (moodCreateEntry uid eid p).intensity = n) ∧
    (∀ e : MoodRow,
      (moodSanitizeEntry e).score = jsOrInt e.score 1 ∧
      (moodSanitizeEntry e).energy = jsOrInt e.energy 3 ∧
      (moodSanitizeEntry e).intensity = jsOrInt e.intensity 3) := by
  refine ⟨?_, ?_, ?_, ?_, ?_, ?_, fun e => ⟨rfl, rfl, rfl⟩⟩
  · rintro (h | h) <;>
      simp [moodCreateEntry, moodCreateEntryRow, moodSanitizeEntry, jsParseIntOr,
        jsOrInt, h]
  · rintro (h | h) <;>
      simp [moodCreateEntry, moodCreateEntryRow, moodSanitizeEntry, jsParseIntOr,
        jsOrInt, h]
  · rintro (h | h) <;>
      simp [moodCreateEntry, moodCreateEntryRow, moodSanitizeEntry, jsParseIntOr,
        jsOrInt, h]
  · intro n hn h
    simp [moodCreateEntry, moodCreateEntryRow, moodSanitizeEntry, jsParseIntOr,
      jsOrInt, h, hn]
  · intro n hn h
    simp [moodCreateEntry, moodCreateEntryRow, moodSanitizeEntry, jsParseIntOr,
      jsOrInt, h, hn]
  · intro n hn h
    simp [moodCreateEntry, moodCreateEntryRow, moodSanitizeEntry, jsParseIntOr,
      jsOrInt, h, hn]

/-- Witness for the amended C5: an empty payload yields the defaults
(1, 3, 3) and score 5 passes through. -/
theorem moodCreateEntry_defaults_witness :
    (moodCreateEntry 1 "m0" {}).score = 1 ∧
    (moodCreateEntry 1 "m0" {}).energy = 3 ∧
    (moodCreateEntry 2 "m2" { score := some 5 }).score = 5 :=
  ⟨(moodCreateEntry_defaults 1 "m0" {}).1 (Or.inl rfl),
   (moodCreateEntry_defaults 1 "m0" {}).2.1 (Or.inl rfl),
   (moodCreateEntry_defaults 2 "m2" { score := some 5 }).2.2.2.1 5 (by decide) rfl⟩

/-- Claim C7 counterexample: on a stored row whose tags column holds the
malformed JSON `[broken`, the dashboard journal fetch does not return
the entity with empty tags — the thrown parse error is caught at the
list level and the whole fetch degrades to the empty list, dropping the
entry. -/
theorem getJournalEntriesDash_malformed_counterexample :
    jsonParse "[broken" = none ∧
    getJournalEntriesDash
      [{ id := "j1", user_id := 1, text := "hello", tags := .dbStr "[broken" }] = [] ∧
    (getJournalEntriesDash
      [{ id := "j1", user_id := 1, text := "hello", tags := .dbStr "[broken" }]).length = 0 := by
  exact ⟨rfl, rfl, rfl⟩

/-- Claim C7 (amended): for a stored tags value on which `JSON.parse`
throws, the journal and mood `sanitizeEntry` read paths return the
entity with `tags = []` without raising; the dashboard journal fetch
has no per-row catch, so the same malformed value aborts the row map
and the fetch returns the empty list (no entities) instead of the
entity with empty tags. -/
theorem tags_malformed_degrade (s : String) (hbad : jsonParse s = none) :
    (∀ e : JournalRow, e.tags = .dbStr s → (journalSanitizeEntry e).tags = []) ∧
    (∀ e : MoodRow, e.tags = .dbStr s → (moodSanitizeEntry e).tags = []) ∧
    (∀ rows : List JournalRow, (∃ e ∈ rows, e.tags = .dbStr s) →
      getJournalEntriesDash rows = []) := by
  refine ⟨?_, ?_, ?_⟩
  · intro e ht
    simp [journalSanitizeEntry, sanitizeTags, ht, hbad]
  · intro e ht
    simp [moodSanitizeEntry, sanitizeTags, ht, hbad]
  · intro rows ⟨e, he, ht⟩
    have herr : dashJournalRowMap e = .error () := by
      simp [dashJournalRowMap, ht, hbad]
    have := mapThrow_error_of_mem dashJournalRowMap rows ⟨e, he, herr⟩
    simp [getJournalEntriesDash, this]

/-- Witness for the amended C7 at the concrete malformed value
`[broken`. -/
theorem tags_malformed_degrade_witness :
    (journalSanitizeEntry
      { id := "j2", user_id := 1, text := "t", tags := .dbStr "[broken" }).tags = [] ∧
    (moodSanitizeEntry
      { id := "m3", user_id := 1, tags := .dbStr "[broken" }).tags = [] ∧
    getJournalEntriesDash
      [{ id := "j2", user_id := 1, text := "t", tags := .dbStr "[broken" }] = [] :=
  ⟨(tags_malformed_degrade "[broken" rfl).1
      { id := "j2", user_id := 1, text := "t", tags := .dbStr "[broken" } rfl,
   (tags_malformed_degrade "[broken" rfl).2.1
      { id := "m3", user_id := 1, tags := .dbStr "[broken" } rfl,
   (tags_malformed_degrade "[broken" rfl).2.2
      [{ id := "j2", user_id := 1, text := "t", tags := .dbStr "[broken" }]
      ⟨{ id := "j2", user_id := 1, text := "t", tags := .dbStr "[broken" },
        List.mem_singleton.mpr rfl, rfl⟩⟩

/- ===== deepseek.service (src/backend/services/deepseek.service.js) ===== -/

/-- The result object of `deepseekService.generateSummary` and its
helpers (the `error`/`analysis` diagnostic fields, unused by every
caller-facing claim, are omitted). -/
structure DSResult where
  success : Bool
  summary : String
  sentiment : String
  provider : String
  fallback : Bool := false
  extracted : Bool := false
deriving DecidableEq, Repr

def validSentiments : List String := ["positive", "neutral", "negative"]

/-- A sentiment is one of the three documented values. -/
def validSentiment (s : String) : Prop :=
  s = "positive" ∨ s = "neutral" ∨ s = "negative"

/-- The object produced by `JSON.parse` inside `parseResponse`: the two
fields the validator consults.  A non-string `sentiment` (on which
`.toLowerCase()` would throw into the manual-extraction path) is
modelled as `none`. -/
structure DSParsed where
  summary : Option String := none
  sentiment : Option String := none
deriving DecidableEq, Repr

/-- The sentiment re-derivation of `parseResponse`: keyword-match the
lowercased summary text. -/
def keywordSentiment (summaryLower : String) : String :=
  if strContains summaryLower "positive" || strContains summaryLower "good" ||
      strContains summaryLower "happy" then "positive"
  else if strContains summaryLower "negative" || strContains summaryLower "bad" ||
      strContains summaryLower "sad" then "negative"
  else "neutral"

/-- `parsed.sentiment ? parsed.sentiment.toLowerCase() : 'neutral'`. -/
def parseSentimentRaw (p : DSParsed) : String :=
  match p.sentiment with
  | none => "neutral"
  | some s => if s = "" then "neutral" else jsToLower s

/-- The validated sentiment of `parseResponse`: keep a valid value,
otherwise re-derive from `(parsed.summary || '').toLowerCase()`. -/
def parseResponseSentiment (p : DSParsed) : String :=
  if parseSentimentRaw p ∈ validSentiments then parseSentimentRaw p
  else keywordSentiment (jsToLower (p.summary.getD ""))

/-- The success return of `parseResponse` once JSON parsing succeeded
(deepseek.service.js lines 151-156). -/
def parseResponseResult (p : DSParsed) : DSResult :=
  { success := true
    summary := jsOrStr p.summary "Summary not available"
    sentiment := parseResponseSentiment p
    provider := "deepseek" }

/-- Strip the quote characters removed by `replace(/['"]/g, '')`. -/
def stripQuoteChars (s : String) : String :=
  ⟨s.data.filter (fun c => !(c = '"' || c.toNat = 39))⟩

/-- `DeepSeekService.extractManually` (lines 170-197): the last line
containing `summary` (case-insensitive) and a colon provides the
summary; the sentiment comes from substring checks on the whole
lowercased response. -/
def extractManually (responseText : String) : DSResult :=
  let lines := (responseText.splitOn "\n").filter (fun l => l.trim ≠ "")
  let summaryLine :=
    (lines.filter (fun l => strContains (jsToLower l) "summary" && strContains l ":")).getLast?
  let summaryV := summaryLine.map (fun l =>
    stripQuoteChars ((String.intercalate ":" ((l.splitOn ":").drop 1)).trim))
  let lowerResponse := jsToLower responseText
  let sentiment :=
    if strContains lowerResponse "positive" then "positive"
    else if strContains lowerResponse "negative" then "negative"
    else if strContains lowerResponse "neutral" then "neutral"
    else "neutral"
  { success := true
    summary := jsOrStr summaryV "Unable to extract summary from response"
    sentiment := sentiment
    provider := "deepseek"
    extracted := true }

def positiveWords : List String :=
  ["happy", "good", "great", "excellent", "wonderful", "amazing", "love", "joy",
   "excited", "grateful", "pleased", "delighted", "thrilled", "optimistic",
   "cheerful", "fantastic", "awesome", "brilliant", "perfect", "satisfied",
   "proud", "accomplished", "successful", "relaxed", "peaceful"]

def negativeWords : List String :=
  ["sad", "bad", "terrible", "awful", "hate", "angry", "frustrated", "stressed",
   "worried", "disappointed", "upset", "depressed", "anxious", "overwhelmed",
   "miserable", "horrible", "disgusting", "annoyed", "irritated", "exhausted",
   "tired", "difficult", "challenging", "tough"]

/-- Maximal non-whitespace runs of a character list (accumulator holds
the current word reversed). -/
def wordsOfAux : List Char → List Char → List (List Char)
  | [], acc => if acc.isEmpty then [] else [acc.reverse]
  | c :: rest, acc =>
    if c.isWhitespace then
      if acc.isEmpty then wordsOfAux rest [] else acc.reverse :: wordsOfAux rest []
    else wordsOfAux rest (c :: acc)

/-- JS `text.split(/\s+/)`: whitespace runs collapse to single
separators, a leading or trailing run contributes one empty string, and
the empty string splits to `[""]`. -/
def jsSplitWS (s : String) : List String :=
  match s.data with
  | [] => [""]
  | c :: cs =>
    let toks := (wordsOfAux (c :: cs) []).map (fun l => (⟨l⟩ : String))
    (if c.isWhitespace then [""] else []) ++ toks ++
      (if ((c :: cs).getLastD ' ').isWhitespace then [""] else [])

/-- Sentence boundary characters of the `/[.!?]/` regexes. -/
def isSentenceEnd (c : Char) : Bool := c = '.' || c = '!' || c = '?'

/-- `DeepSeekService.generateFallbackSummary` (lines 199-238): word and
sentence counts, lexicon majority vote for the sentiment, and a
templated summary built from the first sentence. -/
def generateFallbackSummary (text : String) : DSResult :=
  let words := (jsSplitWS text).length
  let sentences := ((text.split isSentenceEnd).filter (fun s => s.trim ≠ "")).length
  let lowerText := jsToLower text
  let positiveCount := (positiveWords.filter (fun w => strContains lowerText w)).length
  let negativeCount := (negativeWords.filter (fun w => strContains lowerText w)).length
  let sentiment :=
    if positiveCount > negativeCount then "positive"
    else if negativeCount > positiveCount then "negative"
    else "neutral"
  let firstSentence := ((text.split isSentenceEnd).headD "").trim
  let fsPart :=
    if firstSentence.length > 50 then (⟨firstSentence.data.take 50⟩ : String) ++ "..."
    else firstSentence
  let summary :=
    "Journal entry with " ++ toString words ++ " words and " ++ toString sentences ++
      " sentence" ++ (if sentences = 1 then "" else "s") ++ ". " ++ fsPart ++ " " ++
      (if sentiment = "positive" then "Shows generally positive emotions and experiences."
       else if sentiment = "negative" then "Reflects some challenges or difficult emotions."
       else "Maintains a balanced, neutral tone.")
  { success := true
    summary := summary
    sentiment := sentiment
    provider := "deepseek-fallback"
    fallback := true }

/-- Case-insensitive literal prefix removal. -/
def dropPrefixCI (cs : List Char) (p : List Char) : Option (List Char) :=
  if (cs.take p.length).map Char.toLower = p then some (cs.drop p.length) else none

/-- The markdown-fence cleanup of `parseResponse`
(`replace(/```json\s*¦gi` then `replace(/```\s*¦g`): every triple
backtick, optionally followed by `json` (any case), and its trailing
whitespace is removed. -/
def stripFencesAux : ℕ → List Char → List Char
  | 0, _ => []
  | _, [] => []
  | fuel + 1, c :: rest =>
    if c = backtickChar then
      match dropPrefixCI (c :: rest) [backtickChar, backtickChar, backtickChar] with
      | some rest2 =>
        let rest3 := match dropPrefixCI rest2 ['j', 's', 'o', 'n'] with
          | some r => r
          | none => rest2
        stripFencesAux fuel (rest3.dropWhile (fun ch => ch.isWhitespace))
      | none => c :: stripFencesAux fuel rest
    else c :: stripFencesAux fuel rest

/-- The `/\x7b[\s\S]*\x7d/` match of `parseResponse` after fence
cleanup: the substring from the first opening to the last closing brace,
`none` when the regex does not match (no braces in the right order). -/
def extractJsonBlock (s : String) : Option String :=
  let cs := stripFencesAux s.length s.data
  match cs.findIdx? (fun c => c = openBraceChar) with
  | none => none
  | some i =>
    match cs.reverse.findIdx? (fun c => c = closeBraceChar) with
    | none => none
    | some jr =>
      let j := cs.length - 1 - jr
      if i ≤ j then some (⟨(cs.drop i).take (j - i + 1)⟩ : String) else none

/-- `DeepSeekService.parseResponse` (lines 118-168).  `jp` is the
deterministic `JSON.parse` on the matched block, `none` modelling a
thrown `SyntaxError`; any failure falls through to `extractManually` on
the original response text. -/
def parseResponse (jp : String → Option DSParsed) (responseText : String) : DSResult :=
  match extractJsonBlock responseText with
  | some block =>
    match jp block with
    | some parsed => parseResponseResult parsed
    | none => extractManually responseText
  | none => extractManually responseText

/-- Outcome of the remote chat-completion call after the retry loop:
either a response text or a final failure (timeout, network error or
invalid response shape — all caught by the outer try). -/
inductive RemoteOutcome where
  | ok (responseText : String)
  | fail
deriving DecidableEq, Repr

/-- The canned payload of the `DEEPSEEK_MOCK === 'true'` branch of
`generateSummary` (lines 28-38): the summary is the literal JSON text
the source embeds. -/
def mockDSResult : DSResult :=
  { success := true
    summary := "\x7b\"summary\": \"Mock summary: consistent progress and steady mood.\", \"sentiment\": \"neutral\"\x7d"
    sentiment := "neutral"
    provider := "mock" }

/-- `DeepSeekService.generateSummary` (lines 25-116): mock
short-circuit, client-unavailable fallback, then the remote call whose
success goes through `parseResponse` and whose failure (or thrown
error) degrades to `generateFallbackSummary`. -/
def generateSummary (jp : String → Option DSParsed) (mock clientAvailable : Bool)
    (text : String) (remote : RemoteOutcome) : DSResult :=
  if mock then mockDSResult
  else if !clientAvailable then generateFallbackSummary text
  else
    match remote with
    | .ok rt => parseResponse jp rt
    | .fail => generateFallbackSummary text

/- ===== dashboard.service AI analysis (part_000 lines 652-884) ===== -/

/-- The `suggestions` field of an AI payload as the code inspects it:
an array, a single truthy non-array value, or absent/falsy. -/
inductive SuggVal where
  | absent
  | single (s : String)
  | arr (l : List String)
deriving DecidableEq, Repr

/-- The `insights` object shape. -/
structure AIInsights where
  mood_trend : String
  goal_progress : String
  mindfulness : String
deriving DecidableEq, Repr

/-- An already-parsed AI response object as consumed by
`parseAIAnalysis`: exactly the fields the code reads, each optional. -/
structure AIPayload where
  summary : Option String := none
  suggestions : SuggVal := .absent
  insights : Option AIInsights := none
  sentiment : Option String := none
  completionRate : Option ℤ := none
  mindfulness : Option String := none
  confidence : Option String := none
deriving DecidableEq, Repr

def defaultSuggestions : List String :=
  ["Continue your current tracking habits",
   "Set specific, measurable goals",
   "Maintain regular meditation practice",
   "Review your progress weekly"]

/-- The normalized analysis content `{summary, suggestions, insights,
confidence}` produced by `parseAIAnalysis`/`extractInsightsManually`. -/
structure PAResult where
  summary : String
  suggestions : List String
  insights : AIInsights
  confidence : String
deriving DecidableEq, Repr

/-- `DashboardService.parseAIAnalysis` (part_000 lines 747-804) on an
object payload (the only shape `generateAIAnalysis` hands it, after its
own normalization): field defaults, `slice(0, 4)` truncation, and the
synthesized `insights`. -/
def parseAIAnalysis (p : AIPayload) : PAResult :=
  { summary := jsOrStr p.summary
      "Your wellness journey shows consistent engagement across multiple areas."
    suggestions := match p.suggestions with
      | .arr l => l.take 4
      | .single s => [s].take 4
      | .absent => defaultSuggestions
    insights := match p.insights with
      | some i => i
      | none =>
        { mood_trend :=
            if p.sentiment = some "positive" then "improving"
            else if p.sentiment = some "negative" then "declining"
            else "stable"
          goal_progress := match p.completionRate with
            | none => "good"
            | some cr =>
              if cr = 0 then "good"
              else if cr > 60 then "excellent"
              else if cr > 30 then "good"
              else "needs_focus"
          mindfulness := jsOrStr p.mindfulness "consistent" }
    confidence := jsOrStr p.confidence "high" }

def manualSuggestions : List String :=
  ["Review your goal completion patterns for insights",
   "Consider increasing meditation frequency if possible",
   "Track mood patterns to identify triggers",
   "Celebrate your progress and maintain consistency"]

/-- `DashboardService.extractInsightsManually` (part_000 lines 806-835):
fixed suggestion list, keyword-chosen summary sentence, static
insights. -/
def extractInsightsManually (text : String) : PAResult :=
  let lowerText := jsToLower text
  { summary :=
      if strContains lowerText "progress" || strContains lowerText "improvement" then
        "Your wellness journey demonstrates positive progress and consistent engagement with your goals."
      else if strContains lowerText "challenge" || strContains lowerText "difficult" then
        "Your data reveals some challenges, but also shows commitment to tracking and self-improvement."
      else
        "Your wellness data shows active engagement across goals, mood tracking, and mindfulness practices."
    suggestions := manualSuggestions
    insights := { mood_trend := "stable", goal_progress := "good", mindfulness := "consistent" }
    confidence := "medium" }

/-- The summary template of `generateFallbackAnalysis` (part_000 lines
840-848). -/
def fallbackSummaryText (stats : DashStats) (moodCount : ℕ) : String :=
  "You\x27ve been actively tracking your wellness with " ++ toString stats.totalGoals ++
    " goals, " ++ toString moodCount ++ " mood entries, and " ++
    toString stats.totalMedSessions ++ " meditation sessions. " ++
    (if stats.completionRate > 70 then
      "Your goal completion rate is excellent, showing strong commitment to your objectives."
    else if stats.completionRate > 40 then
      "You\x27re making good progress on your goals with room for continued growth."
    else
      "Consider reviewing your goals to ensure they\x27re achievable and aligned with your priorities.")

/-- The suggestion assembly of `generateFallbackAnalysis` (lines
850-874): up to three conditional suggestions, topped up to at least
three static ones, truncated with `slice(0, 4)`. -/
def fallbackSuggestions (stats : DashStats) : List String :=
  let sugg0 :=
    (if stats.openGoals > 5 then
      ["Focus on completing existing goals before adding new ones"] else []) ++
    (if stats.avgMood < 3.5 then
      ["Consider mood-boosting activities like exercise or social connection"] else []) ++
    (if stats.totalMedSessions < 5 then
      ["Try incorporating more regular meditation sessions"]
    else if stats.totalMedMinutes < 60 then
      ["Consider longer meditation sessions for deeper practice"] else [])
  let sugg1 :=
    if sugg0.length < 3 then
      sugg0 ++ ["Continue your consistent tracking habits",
        "Set weekly review times to assess progress",
        "Celebrate small wins along your wellness journey"]
    else sugg0
  sugg1.take 4

/-- The full analysis envelope returned by `generateAIAnalysis` and
`generateFallbackAnalysis` (the `generatedAt` timestamp, irrelevant to
the claims, is omitted). -/
structure AnalysisOut where
  summary : String
  suggestions : List String
  insights : AIInsights
  provider : String
  confidence : String
deriving DecidableEq, Repr

/-- `DashboardService.generateFallbackAnalysis` (part_000 lines
837-884). -/
def generateFallbackAnalysis (goals : List DGoal) (moods : List DMood)
    (medRuns : List DRun) (journalEntries : List DJournal) : AnalysisOut :=
  let stats := calculateStats goals moods medRuns journalEntries
  { summary := fallbackSummaryText stats moods.length
    suggestions := fallbackSuggestions stats
    insights :=
      { mood_trend :=
          if stats.avgMood > 3.5 then "positive"
          else if stats.avgMood > 2.5 then "stable"
          else "needs_attention"
        goal_progress :=
          if stats.completionRate > 60 then "excellent"
          else if stats.completionRate > 30 then "good"
          else "needs_focus"
        mindfulness :=
          if stats.totalMedSessions > 10 then "consistent"
          else if stats.totalMedSessions > 3 then "developing"
          else "beginning" }
    provider := "fallback"
    confidence := "medium" }

/-- `DashboardService.generateAIAnalysis` (part_000 lines 652-709) for
a string-summary DeepSeek result (the only shape `generateSummary`
produces): on `result.success && result.summary` the summary string is
`JSON.parse`d (`jp`), falling back to wrapping it as
`{summary, sentiment}`; the parsed payload goes through
`parseAIAnalysis`; any failure returns `generateFallbackAnalysis`. -/
def generateAIAnalysisModel (jp : String → Option AIPayload) (ds : DSResult)
    (goals : List DGoal) (moods : List DMood) (medRuns : List DRun)
    (journalEntries : List DJournal) : AnalysisOut :=
  if ds.success = true ∧ ds.summary ≠ "" then
    let aiPayload := match jp ds.summary with
      | some p => p
      | none =>
        { summary := some ds.summary
          sentiment := if ds.sentiment = "" then none else some ds.sentiment }
    let parsed := parseAIAnalysis aiPayload
    { summary := parsed.summary
      suggestions := parsed.suggestions
      insights := parsed.insights
      provider := jsOrStr (some ds.provider) "deepseek"
      confidence := jsOrStr (some parsed.confidence) "medium" }
  else generateFallbackAnalysis goals moods medRuns journalEntries

theorem append_left_ne (a b : String) (h : a ≠ "") : a ++ b ≠ "" := by
  intro hc
  apply h
  have hd : (a ++ b).data = a.data ++ b.data := by
    cases a; cases b; rfl
  rw [hc] at hd
  have hnil : a.data = [] := (List.append_eq_nil.mp hd.symm).1
  cases a
  simp at hnil
  simp [hnil]

theorem jsOrStr_ne_empty (v : Option String) (d : String) (hd : d ≠ "") :
    jsOrStr v d ≠ "" := by
  cases v with
  | none => exact hd
  | some s =>
    by_cases hs : s = ""
    · simp [jsOrStr, hs]; exact hd
    · simp [jsOrStr, hs]

theorem keywordSentiment_valid (s : String) : validSentiment (keywordSentiment s) := by
  unfold keywordSentiment validSentiment
  split
  · left; rfl
  · split
    · right; right; rfl
    · right; left; rfl

theorem fallbackSummaryText_ne (stats : DashStats) (mc : ℕ) :
    fallbackSummaryText stats mc ≠ "" := by
  unfold fallbackSummaryText
  apply append_left_ne
  apply append_left_ne
  apply append_left_ne
  apply append_left_ne
  apply append_left_ne
  apply append_left_ne
  apply append_left_ne
  decide

theorem take4_topup (s0 : List String) (e1 e2 e3 : String) :
    1 ≤ ((if s0.length < 3 then s0 ++ [e1, e2, e3] else s0).take 4).length ∧
    ((if s0.length < 3 then s0 ++ [e1, e2, e3] else s0).take 4).length ≤ 4 := by
  simp only [List.length_take]
  refine ⟨le_min (by norm_num) ?_, min_le_left _ _⟩
  by_cases h : s0.length < 3
  · rw [if_pos h]
    simp only [List.length_append, List.length_cons, List.length_nil]
    omega
  · rw [if_neg h]
    omega

theorem fallbackSuggestions_len (stats : DashStats) :
    1 ≤ (fallbackSuggestions stats).length ∧ (fallbackSuggestions stats).length ≤ 4 := by
  unfold fallbackSuggestions
  exact take4_topup _ _ _ _

/-- Claim C2: on every provider failure or unparseable provider response
the dashboard AI analysis chain returns a well-shaped object without
throwing: `parseAIAnalysis` of a payload with no suggestions field (the
shape built when the provider summary is not valid JSON),
`extractInsightsManually`, and `generateFallbackAnalysis` all produce a
non-empty summary string and between 1 and 4 suggestions (all embedded
functions are total, so nothing propagates to the caller). -/
theorem aiAnalysis_failure_wellShaped :
    (∀ p : AIPayload, p.suggestions = .absent →
      (parseAIAnalysis p).summary ≠ "" ∧ (parseAIAnalysis p).suggestions.length = 4) ∧
    (∀ t : String, (extractInsightsManually t).summary ≠ "" ∧
      (extractInsightsManually t).suggestions.length = 4) ∧
    (∀ (goals : List DGoal) (moods : List DMood) (medRuns : List DRun)
        (js : List DJournal),
      (generateFallbackAnalysis goals moods medRuns js).summary ≠ "" ∧
      1 ≤ (generateFallbackAnalysis goals moods medRuns js).suggestions.length ∧
      (generateFallbackAnalysis goals moods medRuns js).suggestions.length ≤ 4) := by
  refine ⟨?_, ?_, ?_⟩
  · intro p hp
    constructor
    · exact jsOrStr_ne_empty _ _ (by decide)
    · simp [parseAIAnalysis, hp, defaultSuggestions]
  · intro t
    constructor
    · have hs : (extractInsightsManually t).summary =
          (if strContains (jsToLower t) "progress" || strContains (jsToLower t) "improvement" then
            "Your wellness journey demonstrates positive progress and consistent engagement with your goals."
          else if strContains (jsToLower t) "challenge" || strContains (jsToLower t) "difficult" then
            "Your data reveals some challenges, but also shows commitment to tracking and self-improvement."
          else
            "Your wellness data shows active engagement across goals, mood tracking, and mindfulness practices.") := rfl
      rw [hs]
      split_ifs <;> decide
    · rfl
  · intro goals moods medRuns js
    refine ⟨fallbackSummaryText_ne _ _, ?_, ?_⟩
    · exact (fallbackSuggestions_len _).1
    · exact (fallbackSuggestions_len _).2

/-- Witness for C2: the wrapped-string payload built from an
unparseable provider response, and the fallback analysis on empty
data. -/
theorem aiAnalysis_failure_wellShaped_witness :
    ((parseAIAnalysis { summary := some "plain text from provider" }).summary ≠ "" ∧
      (parseAIAnalysis { summary := some "plain text from provider" }).suggestions.length = 4) ∧
    ((generateFallbackAnalysis [] [] [] []).summary ≠ "" ∧
      1 ≤ (generateFallbackAnalysis [] [] [] []).suggestions.length ∧
      (generateFallbackAnalysis [] [] [] []).suggestions.length ≤ 4) :=
  ⟨aiAnalysis_failure_wellShaped.1 { summary := some "plain text from provider" } rfl,
   aiAnalysis_failure_wellShaped.2.2 [] [] [] []⟩

theorem extractManually_sentiment_valid (t : String) :
    validSentiment (extractManually t).sentiment := by
  have hs : (extractManually t).sentiment =
      (if strContains (jsToLower t) "positive" then "positive"
       else if strContains (jsToLower t) "negative" then "negative"
       else if strContains (jsToLower t) "neutral" then "neutral"
       else "neutral") := rfl
  rw [hs]
  split_ifs <;> simp [validSentiment]

theorem generateFallbackSummary_sentiment_valid (t : String) :
    validSentiment (generateFallbackSummary t).sentiment := by
  have hs : (generateFallbackSummary t).sentiment =
      (if (positiveWords.filter (fun w => strContains (jsToLower t) w)).length >
          (negativeWords.filter (fun w => strContains (jsToLower t) w)).length then "positive"
       else if (negativeWords.filter (fun w => strContains (jsToLower t) w)).length >
          (positiveWords.filter (fun w => strContains (jsToLower t) w)).length then "negative"
       else "neutral") := rfl
  rw [hs]
  split_ifs <;> simp [validSentiment]

theorem parseResponseResult_sentiment_valid (p : DSParsed) :
    validSentiment (parseResponseResult p).sentiment := by
  show validSentiment (parseResponseSentiment p)
  unfold parseResponseSentiment
  split
  · next h =>
    simpa [validSentiments, validSentiment] using h
  · exact keywordSentiment_valid _

/-- Claim C3: every result of `generateSummary` — via the parsed
provider response (`parseResponse`), the line-by-line manual extraction
(`extractManually`), the heuristic fallback
(`generateFallbackSummary`), or the mock branch — has a sentiment in
{positive, neutral, negative}; and when the provider sentiment is
missing or invalid, `parseResponse` re-derives it by keyword-matching
the lowercased summary text (defaulting to neutral inside
`keywordSentiment`). -/
theorem generateSummary_sentiment_valid :
    (∀ p : DSParsed, validSentiment (parseResponseResult p).sentiment) ∧
    (∀ p : DSParsed, parseSentimentRaw p ∉ validSentiments →
      (parseResponseResult p).sentiment =
        keywordSentiment (jsToLower (p.summary.getD ""))) ∧
    (∀ t : String, validSentiment (extractManually t).sentiment) ∧
    (∀ t : String, validSentiment (generateFallbackSummary t).sentiment) ∧
    (∀ (jp : String → Option DSParsed) (mock clientAvailable : Bool)
        (text : String) (remote : RemoteOutcome),
      validSentiment (generateSummary jp mock clientAvailable text remote).sentiment) := by
  refine ⟨parseResponseResult_sentiment_valid, ?_, extractManually_sentiment_valid,
    generateFallbackSummary_sentiment_valid, ?_⟩
  · intro p h
    show parseResponseSentiment p = _
    unfold parseResponseSentiment
    rw [if_neg h]
  · intro jp mock avail text remote
    unfold generateSummary
    split
    · right; left; rfl
    · split
      · exact generateFallbackSummary_sentiment_valid text
      · cases remote with
        | ok rt =>
          show validSentiment (parseResponse jp rt).sentiment
          unfold parseResponse
          split
          · split
            · exact parseResponseResult_sentiment_valid _
            · exact extractManually_sentiment_valid rt
          · exact extractManually_sentiment_valid rt
        | fail =>
          show validSentiment (generateFallbackSummary text).sentiment
          exact generateFallbackSummary_sentiment_valid text

/-- Witness for C3: a provider object with the invalid sentiment
`joyful` is re-derived from its summary text, and a concrete
parse-failure response gets a valid sentiment. -/
theorem generateSummary_sentiment_valid_witness :
    (parseResponseResult { summary := some "a good day", sentiment := some "joyful" }).sentiment =
      keywordSentiment (jsToLower "a good day") ∧
    validSentiment (extractManually "no json here").sentiment :=
  ⟨generateSummary_sentiment_valid.2.1
      { summary := some "a good day", sentiment := some "joyful" } (by decide),
   generateSummary_sentiment_valid.2.2.1 "no json here"⟩

/-- Claim C8: with `DEEPSEEK_MOCK === 'true'`, `generateSummary`
short-circuits before the client check, the remote call and every
parser, returning the identical canned payload — the fixed mock summary
JSON text, sentiment `neutral`, provider `mock` — for any two inputs;
consequently the dashboard analysis content computed from it by
`generateAIAnalysis` is also independent of the user data and of the
remote outcome. -/
theorem generateSummary_mock_deterministic :
    (∀ (jp : String → Option DSParsed) (c : Bool) (t : String) (r : RemoteOutcome),
      generateSummary jp true c t r = mockDSResult) ∧
    mockDSResult.sentiment = "neutral" ∧
    mockDSResult.provider = "mock" ∧
    mockDSResult.success = true ∧
    (∀ (jpA : String → Option AIPayload) (jp1 jp2 : String → Option DSParsed)
        (c1 c2 : Bool) (t1 t2 : String) (r1 r2 : RemoteOutcome)
        (g1 g2 : List DGoal) (m1 m2 : List DMood) (mr1 mr2 : List DRun)
        (j1 j2 : List DJournal),
      generateAIAnalysisModel jpA (generateSummary jp1 true c1 t1 r1) g1 m1 mr1 j1 =
        generateAIAnalysisModel jpA (generateSummary jp2 true c2 t2 r2) g2 m2 mr2 j2) := by
  have hmock : ∀ (jp : String → Option DSParsed) (c : Bool) (t : String)
      (r : RemoteOutcome), generateSummary jp true c t r = mockDSResult := by
    intro jp c t r
    simp [generateSummary]
  have hbranch : ∀ (jpA : String → Option AIPayload) (g : List DGoal)
      (m : List DMood) (mr : List DRun) (j : List DJournal),
      generateAIAnalysisModel jpA mockDSResult g m mr j =
        generateAIAnalysisModel jpA mockDSResult [] [] [] [] := by
    intro jpA g m mr j
    unfold generateAIAnalysisModel
    have hc : mockDSResult.success = true ∧ mockDSResult.summary ≠ "" :=
      ⟨rfl, by decide⟩
    rw [if_pos hc, if_pos hc]
  refine ⟨hmock, rfl, rfl, rfl, ?_⟩
  intro jpA jp1 jp2 c1 c2 t1 t2 r1 r2 g1 g2 m1 m2 mr1 mr2 j1 j2
  rw [hmock jp1 c1 t1 r1, hmock jp2 c2 t2 r2, hbranch jpA g1 m1 mr1 j1,
    hbranch jpA g2 m2 mr2 j2]

/- ===== auth.controller (src/backend/controllers/auth.controller.js) ===== -/

/-- A `users` row as a field map (`{ password_hash, ...rest }`
destructuring acts on the object keys, so users are modelled as
key-value lists; a JS object has unique keys). -/
def UserFields : Type := List (String × String)

/-- `sanitizeUser` (auth.controller.js lines 3-7): drop the
`password_hash` property, keep the rest; null in, null out. -/
def sanitizeUser (u : Option UserFields) : Option UserFields :=
  u.map (fun fields => fields.filter (fun kv => kv.1 ≠ "password_hash"))

/-- An auth endpoint response: HTTP status plus the optional `user`
object of the JSON body (token and message fields carry no user data
and are omitted). -/
structure AuthResponse where
  status : ℕ
  userFields : Option UserFields := none

/-- `register` (lines 9-27): 400 on missing fields, 409 on an existing
email, else 201 with the sanitized created user. -/
def registerEndpoint (hasAllFields : Bool) (existing : Option UserFields)
    (created : UserFields) : AuthResponse :=
  if !hasAllFields then { status := 400 }
  else
    match existing with
    | some _ => { status := 409 }
    | none => { status := 201, userFields := sanitizeUser (some created) }

/-- `login` (lines 29-47): 400 on missing fields, 401 on unknown email
or failed password check, else 200 with the sanitized user. -/
def loginEndpoint (hasAllFields : Bool) (user : Option UserFields)
    (passwordOk : Bool) : AuthResponse :=
  if !hasAllFields then { status := 400 }
  else
    match user with
    | none => { status := 401 }
    | some u =>
      if !passwordOk then { status := 401 }
      else { status := 200, userFields := sanitizeUser (some u) }

/-- `me` (lines 59-69): 404 when the token user no longer exists, else
200 with the sanitized user. -/
def meEndpoint (user : Option UserFields) : AuthResponse :=
  match user with
  | none => { status := 404 }
  | some u => { status := 200, userFields := sanitizeUser (some u) }

theorem sanitizeUser_no_hash (u : Option UserFields) (fields : UserFields)
    (h : sanitizeUser u = some fields) : "password_hash" ∉ fields.map Prod.fst := by
  intro hmem
  obtain ⟨kv, hkv, hfst⟩ := List.mem_map.mp hmem
  cases u with
  | none => simp [sanitizeUser] at h
  | some f0 =>
    have h2 : f0.filter (fun kv => kv.1 ≠ "password_hash") = fields := by
      simpa [sanitizeUser] using h
    subst h2
    have hfilter := (List.mem_filter.mp hkv).2
    rw [hfst] at hfilter
    simp at hfilter

/-- Claim C10: every successful response of the auth endpoints
`register`, `login` and `me` carries a user object with no
`password_hash` key — `sanitizeUser` strips the stored bcrypt hash
before serialization on each path (and the failure responses carry no
user object at all). -/
theorem auth_responses_never_leak_hash :
    (∀ (hf : Bool) (existing : Option UserFields) (created : UserFields)
        (fields : UserFields),
      (registerEndpoint hf existing created).userFields = some fields →
        "password_hash" ∉ fields.map Prod.fst) ∧
    (∀ (hf : Bool) (user : Option UserFields) (pok : Bool) (fields : UserFields),
      (loginEndpoint hf user pok).userFields = some fields →
        "password_hash" ∉ fields.map Prod.fst) ∧
    (∀ (user : Option UserFields) (fields : UserFields),
      (meEndpoint user).userFields = some fields →
        "password_hash" ∉ fields.map Prod.fst) := by
  refine ⟨?_, ?_, ?_⟩
  · intro hf existing created fields h
    unfold registerEndpoint at h
    split at h
    · simp at h
    · split at h
      · simp at h
      · exact sanitizeUser_no_hash (some created) fields h
  · intro hf user pok fields h
    unfold loginEndpoint at h
    split at h
    · simp at h
    · split at h
      · simp at h
      · split at h
        · simp at h
        · next u _ => exact sanitizeUser_no_hash (some u) fields h
  · intro user fields h
    unfold meEndpoint at h
    split at h
    · simp at h
    · next u => exact sanitizeUser_no_hash (some u) fields h

/-- Witness for C10: a concrete login success on a stored row carrying
a bcrypt hash yields a user object without the hash key. -/
theorem auth_responses_never_leak_hash_witness :
    (loginEndpoint true
        (some [("id", "1"), ("email", "a@b.c"), ("password_hash", "bcrypt$x")])
        true).userFields =
      some [("id", "1"), ("email", "a@b.c")] ∧
    "password_hash" ∉
      (([("id", "1"), ("email", "a@b.c")] : UserFields).map Prod.fst) :=
  ⟨rfl,
   auth_responses_never_leak_hash.2.1 true
     (some [("id", "1"), ("email", "a@b.c"), ("password_hash", "bcrypt$x")])
     true [("id", "1"), ("email", "a@b.c")] rfl⟩
